import Mathlib

/-!
# Railway API server: formal model of the multi-source retrieval engine

A shallow embedding of `src/main.py` of the `railway-api-server` repository.
The HTTP transport, the HTML tag/attribute parser and the wall clock are
external capabilities (out of scope per the design); they are modelled as
abstract oracles, while every decision the Python code makes on top of them
(selector cascades, retry loop, date fallback, source priority, response
shaping) is translated faithfully.
-/

namespace Railway

/-! ## Parsed-markup model

`BeautifulSoup` is out of scope; a parsed document is modelled as the list of
its elements (in document order, as `find`/`find_all` traverse them) together
with the page's visible text (what `soup.get_text()` returns). -/

/-- One HTML element as the scraper sees it: tag name, attributes, text. -/
structure Element where
  tag : String
  attrs : List (String × String)
  text : String
  deriving Repr, DecidableEq, Inhabited

/-- A parsed document: elements in document order plus the visible page text. -/
structure Doc where
  elems : List Element
  pageText : String
  deriving Repr, DecidableEq

/-- Does element `e` match tag `t` and carry every attribute in `a`?
Models BeautifulSoup's `find(tag, {attr: value})` matching. -/
def elemMatches (e : Element) (t : String) (a : List (String × String)) : Bool :=
  e.tag == t && a.all (fun p => e.attrs.contains p)

/-- `soup.find(tag, attrs)`: first matching element, if any. -/
def find (d : Doc) (t : String) (a : List (String × String)) : Option Element :=
  d.elems.find? (fun e => elemMatches e t a)

/-- `soup.find_all(tag, attrs)`: all matching elements in document order. -/
def find_all (d : Doc) (t : String) (a : List (String × String)) : List Element :=
  d.elems.filter (fun e => elemMatches e t a)

/-! ## String helpers used by the scrapers -/

/-- Python's `str.strip()`: drop whitespace from both ends. -/
def strip (s : String) : String :=
  String.mk (((s.data.dropWhile Char.isWhitespace).reverse.dropWhile
    Char.isWhitespace).reverse)

/-- `re.findall(r'\d+', s)` on a list of characters: the maximal runs of
decimal digits, left to right. `acc` holds the current run, reversed. -/
def digitRunsAux : List Char → List Char → List String
  | [], acc => if acc.isEmpty then [] else [String.mk acc.reverse]
  | c :: cs, acc =>
    if c.isDigit then digitRunsAux cs (c :: acc)
    else if acc.isEmpty then digitRunsAux cs acc
    else String.mk acc.reverse :: digitRunsAux cs []

/-- `re.findall(r'\d+', s)`: the maximal runs of digits in `s`. -/
def digitRuns (s : String) : List String :=
  digitRunsAux s.data []

/-- Python `int` on a string of decimal digits. -/
def digitsToNat (s : String) : Nat :=
  s.data.foldl (fun n c => n * 10 + (c.toNat - 48)) 0

/-- `int(re.findall(r'\d+', s)[0])` with a default of 0 when no digits occur:
the code's normalisation of a delay text to minutes. -/
def firstDigitRunNat (s : String) : Nat :=
  match digitRuns s with
  | [] => 0
  | n :: _ => digitsToNat n

/-- Scanner for `re.findall(r'[A-Z]{4}', text)`; `fuel` bounds the number of
scan steps so the recursion is structural (and hence kernel-evaluable). -/
def upper4Aux : Nat → List Char → List String
  | 0, _ => []
  | _ + 1, [] => []
  | fuel + 1, c :: rest =>
    match rest with
    | c2 :: c3 :: c4 :: rest2 =>
      if c.isUpper && c2.isUpper && c3.isUpper && c4.isUpper then
        String.mk [c, c2, c3, c4] :: upper4Aux fuel rest2
      else upper4Aux fuel rest
    | _ => []

/-- `re.findall(r'[A-Z]{4}', text)`: non-overlapping four-uppercase-letter
matches, scanning left to right (a match consumes its four characters). -/
def upper4 (cs : List Char) : List String :=
  upper4Aux cs.length cs

/-! ## The canonical record -/

/-- The `TrainStatusRecord` dict the scrapers build; `source_used` is the tag
the orchestrator attaches (`data['source_used'] = source['name']`). -/
structure TrainRecord where
  train_no : String
  train_name : String
  status : String
  current_location : String
  delay_minutes : Nat
  date : String
  last_updated : String
  source : String
  destination : String
  data_source : String
  source_used : Option String := none
  deriving Repr, DecidableEq

/-! ## NTES parser (`parse_ntes_html`) -/

/-- The train-name cascade in `parse_ntes_html`: walk the selector list; a
selector with truthy text assigns the stripped text, and the loop breaks only
when that text is non-empty and longer than 3 characters (otherwise the
assignment stands but later selectors may overwrite it). -/
def pickTrainName : List (Option Element) → Option String → Option String
  | [], current => current
  | none :: rest, current => pickTrainName rest current
  | some e :: rest, current =>
    if e.text ≠ "" then
      let t := strip e.text
      if t ≠ "" ∧ t.length > 3 then some t
      else pickTrainName rest (some t)
    else pickTrainName rest current

/-- The status/location cascade: first selector with truthy text wins
(its stripped text is taken and the loop breaks), else the default. -/
def firstText : List (Option Element) → String → String
  | [], dflt => dflt
  | none :: rest, dflt => firstText rest dflt
  | some e :: rest, dflt =>
    if e.text ≠ "" then strip e.text else firstText rest dflt

/-- The delay cascade in `parse_ntes_html`: first selector with truthy text
breaks the loop; the delay is the first digit run of its stripped text, or 0
when that text has no digits (and 0 when no selector matches). -/
def delayFromSelectors : List (Option Element) → Nat
  | [] => 0
  | none :: rest => delayFromSelectors rest
  | some e :: rest =>
    if e.text ≠ "" then firstDigitRunNat (strip e.text)
    else delayFromSelectors rest

/-- `parse_ntes_html(html, train_no, target_date)`. `now` stands for
`datetime.now(ist).strftime("%H:%M:%S")`. Total by construction: the
Python `try/except` around it can only fire inside the out-of-scope
markup primitives. -/
def parse_ntes_html (d : Doc) (train_no target_date now : String) : TrainRecord :=
  let nameOpt := pickTrainName
    [find d "span" [("id", "lblTrainName")],
     find d "div" [("class", "train-name")],
     find d "h3" [],
     find d "h2" [],
     find d "title" []] none
  let train_name :=
    match nameOpt with
    | none => "Train " ++ train_no
    | some t => if t = "" then "Train " ++ train_no else t
  let status := firstText
    [find d "span" [("id", "lblRunningStatus")],
     find d "div" [("class", "status")]] "Running"
  let current_location := firstText
    [find d "span" [("id", "lblLastLocation")],
     find d "div" [("class", "location")],
     find d "span" [("id", "lblCurrentStation")]] "N/A"
  let delay := delayFromSelectors
    [find d "span" [("id", "lblDelay")],
     find d "div" [("class", "delay")],
     find d "font" [("color", "red")]]
  let station_spans := find_all d "span" [("class", "station-code")]
  let (source, destination) :=
    if station_spans.length ≥ 2 then
      (strip (station_spans.head!).text, strip (station_spans.getLast!).text)
    else
      let station_codes := upper4 d.pageText.data
      if station_codes.length ≥ 2 then
        (station_codes.head!, station_codes.getLast!)
      else ("N/A", "N/A")
  { train_no := train_no
    train_name := train_name
    status := status
    current_location := current_location
    delay_minutes := delay
    date := target_date
    last_updated := now
    source := source
    destination := destination
    data_source := "NTES" }

/-! ## Transport and clock oracles

One `requests.get` call has four relevant outcomes: an HTTP response
(status code and parsed body), a timeout (`requests.exceptions.Timeout`),
a transport-level connection error (`requests.exceptions.ConnectionError`),
or any other exception. The two last ones are distinguished in the model
even though the Python code handles both through its generic
`except Exception` clause. -/

/-- Outcome of one network GET. -/
inductive NetOutcome where
  | ok (status : Nat) (body : Doc)
  | timeout
  | connError
  | otherExn
  deriving Repr, DecidableEq

/-- The external world one `resolve` call runs against: a clock capability
(`clock tzName fmt offsetDays` is what `datetime.now(pytz.timezone(tzName))
+ timedelta(days=offsetDays)` formats with `fmt`), the time-of-day string
`now`, and per-source transport oracles (NTES's is indexed by the date in
the URL and by the attempt number, since each retry is a fresh GET). -/
structure Env where
  clock : String → String → Int → String
  now : String
  ntesHttp : String → Nat → NetOutcome
  railHttp : NetOutcome
  ixigoHttp : NetOutcome

/-- `get_india_date()`: today in the named India timezone, `%d-%m-%Y`. -/
def get_india_date (env : Env) : String :=
  env.clock "Asia/Kolkata" "%d-%m-%Y" 0

/-- `get_india_date_offset(days)`: offset date in India timezone. -/
def get_india_date_offset (env : Env) (days : Int) : String :=
  env.clock "Asia/Kolkata" "%d-%m-%Y" days

/-- `get_india_datetime()`: timestamp string used in responses/logs. -/
def get_india_datetime (env : Env) : String :=
  env.clock "Asia/Kolkata" "%Y-%m-%d %H:%M:%S" 0

/-! ## Observable events

Each run is instrumented with a trace of its side effects: network GETs
(one per `requests.get` call) and `time.sleep` waits. -/

/-- One observable side effect of the engine. -/
inductive Ev where
  | ntesGet (date : String) (attempt : Nat)
  | railGet
  | ixigoGet
  | sleep (secs : Nat)
  deriving Repr, DecidableEq

/-- Is the event a network GET (as opposed to a wait)? -/
def isNetworkCall : Ev → Bool
  | .ntesGet _ _ => true
  | .railGet => true
  | .ixigoGet => true
  | .sleep _ => false

/-- The network GETs of a trace, in order. -/
def networkCalls (evs : List Ev) : List Ev :=
  evs.filter isNetworkCall

/-- The default of the `max_retries` parameter of `fetch_data_with_retry`
(the only value the callers ever use). -/
def max_retries : Nat := 2

/-! ## NTES fetch with retry (`fetch_data_with_retry`) -/

/-- The body of `fetch_data_with_retry`'s `for attempt in range(max_retries)`
loop, structurally recursive on the number of attempts still available
(`remaining + 1` counts the current attempt); `k` is the 0-indexed attempt
number. A 200 response parses and returns; a non-200 response falls through
to the next attempt; a timeout sleeps a fixed 2 seconds and retries unless
this was the final permitted attempt; every other exception (connection
errors included) breaks out of the loop at once. -/
def retryAux (env : Env) (tn td : String) : Nat → Nat → Option TrainRecord × List Ev
  | 0, _ => (none, [])
  | remaining + 1, k =>
    match env.ntesHttp td k with
    | .ok s body =>
      if s = 200 then
        (some (parse_ntes_html body tn td env.now), [.ntesGet td k])
      else
        let r := retryAux env tn td remaining (k + 1)
        (r.1, .ntesGet td k :: r.2)
    | .timeout =>
      if remaining = 0 then (none, [.ntesGet td k])
      else
        let r := retryAux env tn td remaining (k + 1)
        (r.1, .ntesGet td k :: .sleep 2 :: r.2)
    | .connError => (none, [.ntesGet td k])
    | .otherExn => (none, [.ntesGet td k])

/-- `fetch_data_with_retry(train_no, target_date, max_retries=2)`. -/
def fetch_data_with_retry (env : Env) (tn td : String)
    (maxRetries : Nat := max_retries) : Option TrainRecord × List Ev :=
  retryAux env tn td maxRetries 0

/-! ## RailYatri adapter (`fetch_from_railyatri`) -/

/-- The name cascade shared by the RailYatri scraper: first selector with
truthy text wins and the loop breaks (even when the stripped text is empty). -/
def firstTextOpt : List (Option Element) → Option String
  | [] => none
  | none :: rest => firstTextOpt rest
  | some e :: rest =>
    if e.text ≠ "" then some (strip e.text) else firstTextOpt rest

/-- The Ixigo delay cascade: like `delayFromSelectors` but the matched text
is not stripped before the digit scan (`re.findall(r'\d+', sel.text)`). -/
def delayFromSelectorsRaw : List (Option Element) → Nat
  | [] => 0
  | none :: rest => delayFromSelectorsRaw rest
  | some e :: rest =>
    if e.text ≠ "" then firstDigitRunNat e.text
    else delayFromSelectorsRaw rest

/-- The record `fetch_from_railyatri` builds from a 200 response body. -/
def parse_railyatri (d : Doc) (tn : String) (env : Env) : TrainRecord :=
  let nameOpt := firstTextOpt
    [find d "h1" [("class", "train-heading")],
     find d "div" [("class", "train-name")],
     find d "title" []]
  let train_name :=
    match nameOpt with
    | none => "Train " ++ tn
    | some t => if t = "" then "Train " ++ tn else t
  let current_location := firstText
    [find d "span" [("class", "current-location")],
     find d "div" [("class", "live-location")],
     find d "div" [("class", "station-name")]] "N/A"
  let delay :=
    match find d "span" [("class", "delay-value")] with
    | none => 0
    | some e => firstDigitRunNat e.text
  let (source, destination) :=
    let station_codes := find_all d "span" [("class", "station-code")]
    if station_codes.length ≥ 2 then
      (strip (station_codes.head!).text, strip (station_codes.getLast!).text)
    else ("N/A", "N/A")
  let last_updated :=
    match find d "span" [("class", "update-time")] with
    | none => env.now
    | some e => strip e.text
  { train_no := tn
    train_name := train_name
    status := "Running"
    current_location := current_location
    delay_minutes := delay
    date := get_india_date env
    last_updated := last_updated
    source := source
    destination := destination
    data_source := "RailYatri" }

/-- `fetch_from_railyatri(train_no)`: one GET, no retry; a non-200 status or
any exception (timeout and connection error included) yields `None`. -/
def fetch_from_railyatri (env : Env) (tn : String) :
    Option TrainRecord × List Ev :=
  match env.railHttp with
  | .ok s d =>
    if s = 200 then (some (parse_railyatri d tn env), [.railGet])
    else (none, [.railGet])
  | _ => (none, [.railGet])

/-! ## Ixigo adapter (`fetch_from_ixigo`) -/

/-- The record `fetch_from_ixigo` builds from a 200 response body. -/
def parse_ixigo (d : Doc) (tn : String) (env : Env) : TrainRecord :=
  let nameOpt := (find d "h1" []).map (fun e => strip e.text)
  let train_name :=
    match nameOpt with
    | none => "Train " ++ tn
    | some t => if t = "" then "Train " ++ tn else t
  let current_location := firstText
    [find d "div" [("class", "current-location")],
     find d "span" [("class", "station-name")],
     find d "div" [("class", "live-location")]] "N/A"
  let delay := delayFromSelectorsRaw
    [find d "span" [("class", "delay")],
     find d "div" [("class", "delay-info")]]
  { train_no := tn
    train_name := train_name
    status := "Running"
    current_location := current_location
    delay_minutes := delay
    date := get_india_date env
    last_updated := env.now
    source := "N/A"
    destination := "N/A"
    data_source := "Ixigo" }

/-- `fetch_from_ixigo(train_no)`: one GET, no retry; a non-200 status or any
exception yields `None`. -/
def fetch_from_ixigo (env : Env) (tn : String) :
    Option TrainRecord × List Ev :=
  match env.ixigoHttp with
  | .ok s d =>
    if s = 200 then (some (parse_ixigo d tn env), [.ixigoGet])
    else (none, [.ixigoGet])
  | _ => (none, [.ixigoGet])

/-! ## Orchestrator (`fetch_train_data_multi_source`) -/

/-- `try_ntes_with_yesterday(t)`: the primary source's date fallback — fetch
today's date first; only when that yields nothing, fetch yesterday's. -/
def try_ntes_with_yesterday (env : Env) (tn : String) :
    Option TrainRecord × List Ev :=
  let r1 := fetch_data_with_retry env tn (get_india_date env)
  match r1.1 with
  | some d => (some d, r1.2)
  | none =>
    let r2 := fetch_data_with_retry env tn (get_india_date_offset env (-1))
    (r2.1, r1.2 ++ r2.2)

/-- Attach the orchestrator's provenance tag
(`data['source_used'] = source['name']`). -/
def tagSource (r : TrainRecord) (name : String) : TrainRecord :=
  { r with source_used := some name }

/-- `fetch_train_data_multi_source(train_no)`: try the sources in the fixed
priority order [NTES-with-date-fallback, RailYatri, Ixigo]; the first record
returned is tagged and ends the search; after each unsuccessful source the
engine sleeps 1 second (also after the last one, before returning `None`). -/
def fetch_train_data_multi_source (env : Env) (tn : String) :
    Option TrainRecord × List Ev :=
  let r1 := try_ntes_with_yesterday env tn
  match r1.1 with
  | some d => (some (tagSource d "NTES"), r1.2)
  | none =>
    let r2 := fetch_from_railyatri env tn
    match r2.1 with
    | some d => (some (tagSource d "RailYatri"), r1.2 ++ .sleep 1 :: r2.2)
    | none =>
      let r3 := fetch_from_ixigo env tn
      match r3.1 with
      | some d =>
        (some (tagSource d "Ixigo"),
          r1.2 ++ .sleep 1 :: (r2.2 ++ .sleep 1 :: r3.2))
      | none =>
        (none, r1.2 ++ .sleep 1 :: (r2.2 ++ .sleep 1 :: (r3.2 ++ [.sleep 1])))

/-! ## HTTP endpoint (`get_train_status_multi`) -/

/-- A JSON response body of `GET /status/<train_no>`: either a record or the
error object `{error, train_no, message, server_time_ist}`. -/
inductive Body where
  | record (r : TrainRecord)
  | err (error train_no message server_time_ist : String)
  deriving Repr, DecidableEq

/-- `GET /status/<train_no>`: HTTP status code and JSON body. -/
def get_train_status_multi (env : Env) (tn : String) : Nat × Body :=
  match (fetch_train_data_multi_source env tn).1 with
  | some r => (200, .record r)
  | none =>
    (404, .err "Train data not found from any source" tn
      "All railway data sources are currently unavailable. Please try again later."
      (get_india_datetime env))

/-! ## Concrete fixtures

Closed environments and documents used by counterexamples and witnesses. -/

/-- A markup-free document. -/
def emptyDoc : Doc := ⟨[], ""⟩

/-- An NTES page with a train name, a delay text and two station codes. -/
def ntesDocFix : Doc :=
  ⟨[⟨"span", [("id", "lblTrainName")], "Rajdhani Express"⟩,
    ⟨"span", [("id", "lblDelay")], "Running 12 min late"⟩,
    ⟨"span", [("class", "station-code")], "NDLS"⟩,
    ⟨"span", [("class", "station-code")], "BCT"⟩], ""⟩

/-- A document whose only element is a delay span with text `t`. -/
def delayDocFix (t : String) : Doc :=
  ⟨[⟨"span", [("id", "lblDelay")], t⟩], ""⟩

/-- A document with exactly two tagged station-code elements. -/
def stationDocFix : Doc :=
  ⟨[⟨"span", [("class", "station-code")], "NDLS"⟩,
    ⟨"span", [("class", "station-code")], "BCT"⟩], ""⟩

/-- A RailYatri page with just a heading. -/
def railDocFix : Doc := ⟨[⟨"h1", [("class", "train-heading")], "Mumbai Rajdhani"⟩], ""⟩

/-- An Ixigo page with just an `h1`. -/
def ixigoDocFix : Doc := ⟨[⟨"h1", [], "Karnataka Express"⟩], ""⟩

/-- A concrete IST clock: distinct `%d-%m-%Y` strings for offsets 0 / -1 /
everything else, and a fixed timestamp for the datetime format. -/
def cexClock : String → String → Int → String := fun _ fmt off =>
  if fmt = "%d-%m-%Y" then
    if off = 0 then "10-10-2026" else if off = -1 then "09-10-2026" else "08-10-2026"
  else "2026-10-10 12:00:00"

/-- Like `cexClock` but with different calendar dates and the same
datetime-format output. -/
def cexClock2 : String → String → Int → String := fun _ fmt off =>
  if fmt = "%d-%m-%Y" then
    if off = 0 then "01-01-2030" else if off = -1 then "31-12-2029" else "30-12-2029"
  else "2026-10-10 12:00:00"

/-- NTES answers 200 with a parseable page on every date and attempt. -/
def envNtesOkFix : Env :=
  ⟨cexClock, "12:00:00", fun _ _ => .ok 200 ntesDocFix, .otherExn, .otherExn⟩

/-- Every source fails: NTES returns 503, RailYatri times out, Ixigo hits a
connection error. -/
def envAllFailFix : Env :=
  ⟨cexClock, "12:00:00", fun _ _ => .ok 503 emptyDoc, .timeout, .connError⟩

/-- `envAllFailFix` under the other clock: different dates get attempted,
identical timestamp output. -/
def envAllFailFix2 : Env :=
  ⟨cexClock2, "12:00:00", fun _ _ => .ok 503 emptyDoc, .timeout, .connError⟩

/-- NTES times out on every attempt. -/
def envTimeoutFix : Env :=
  ⟨cexClock, "12:00:00", fun _ _ => .timeout, .timeout, .timeout⟩

/-- NTES hits a connection error on attempt 0 but would answer 200 on
attempt 1. -/
def envConnFix : Env :=
  ⟨cexClock, "12:00:00",
   fun _ k => if k = 0 then .connError else .ok 200 ntesDocFix,
   .otherExn, .otherExn⟩

/-- NTES fails with 503; RailYatri and Ixigo answer 200. -/
def envRailOkFix : Env :=
  ⟨cexClock, "12:00:00", fun _ _ => .ok 503 emptyDoc,
   .ok 200 railDocFix, .ok 200 ixigoDocFix⟩

/-- NTES fails with 503, RailYatri times out, Ixigo answers 200. -/
def envIxigoOkFix : Env :=
  ⟨cexClock, "12:00:00", fun _ _ => .ok 503 emptyDoc,
   .timeout, .ok 200 ixigoDocFix⟩

/-- The record NTES's parser extracts from `ntesDocFix`. -/
def recNtesFix : TrainRecord :=
  parse_ntes_html ntesDocFix "12951" "10-10-2026" "12:00:00"

end Railway

namespace Railway

/-! ## Trace lemmas for the retry loop and the adapters -/

/-- Every event the NTES retry loop emits is a GET for the very date it was
asked to fetch, or the fixed 2-second backoff sleep. -/
lemma retryAux_trace_shape (env : Env) (tn td : String) :
    ∀ rem k, ∀ e ∈ (retryAux env tn td rem k).2,
      (∃ a, e = Ev.ntesGet td a) ∨ e = Ev.sleep 2 := by
  intro rem
  induction rem with
  | zero => intro k e he; simp [retryAux] at he
  | succ n ih =>
    intro k e he
    rw [retryAux] at he
    cases h : env.ntesHttp td k with
    | ok s body =>
      rw [h] at he
      by_cases hs : s = 200
      · simp [hs] at he
        exact Or.inl ⟨k, he⟩
      · simp [hs] at he
        rcases he with he | he
        · exact Or.inl ⟨k, he⟩
        · exact ih (k + 1) e he
    | timeout =>
      rw [h] at he
      by_cases hn : n = 0
      · simp [hn] at he
        exact Or.inl ⟨k, he⟩
      · simp [hn] at he
        rcases he with he | he | he
        · exact Or.inl ⟨k, he⟩
        · exact Or.inr he
        · exact ih (k + 1) e he
    | connError =>
      rw [h] at he
      simp at he
      exact Or.inl ⟨k, he⟩
    | otherExn =>
      rw [h] at he
      simp at he
      exact Or.inl ⟨k, he⟩

/-- When at least one attempt is permitted, the first event of the retry loop
is the GET for attempt `k` on the requested date. -/
lemma retryAux_head (env : Env) (tn td : String) (rem k : Nat) (h : 0 < rem) :
    (retryAux env tn td rem k).2.head? = some (Ev.ntesGet td k) := by
  cases rem with
  | zero => omega
  | succ n =>
    rw [retryAux]
    cases env.ntesHttp td k with
    | ok s body => by_cases hs : s = 200 <;> simp [hs]
    | timeout => by_cases hn : n = 0 <;> simp [hn]
    | connError => simp
    | otherExn => simp

/-- The retry loop issues at most `rem` network GETs. -/
lemma retryAux_network_len (env : Env) (tn td : String) :
    ∀ rem k, (networkCalls (retryAux env tn td rem k).2).length ≤ rem := by
  intro rem
  induction rem with
  | zero => intro k; simp [retryAux, networkCalls]
  | succ n ih =>
    intro k
    rw [retryAux]
    cases env.ntesHttp td k with
    | ok s body =>
      by_cases hs : s = 200
      · simp [hs, networkCalls, isNetworkCall]
      · simp only [hs, if_false, networkCalls, List.filter_cons]
        simp [isNetworkCall]
        exact ih (k + 1)
    | timeout =>
      by_cases hn : n = 0
      · simp [hn, networkCalls, isNetworkCall]
      · simp only [hn, if_false, networkCalls, List.filter_cons]
        simp [isNetworkCall]
        exact ih (k + 1)
    | connError => simp [networkCalls, isNetworkCall]
    | otherExn => simp [networkCalls, isNetworkCall]

/-- The date-fallback wrapper emits only NTES GETs and backoff sleeps. -/
lemma try_ntes_trace_shape (env : Env) (tn : String) :
    ∀ e ∈ (try_ntes_with_yesterday env tn).2,
      (∃ d a, e = Ev.ntesGet d a) ∨ ∃ s, e = Ev.sleep s := by
  intro e he
  rw [try_ntes_with_yesterday] at he
  cases h : (fetch_data_with_retry env tn (get_india_date env)).1 with
  | some r =>
    rw [h] at he
    simp only at he
    rcases retryAux_trace_shape env tn (get_india_date env) max_retries 0 e he with
      ⟨a, ha⟩ | hs
    · exact Or.inl ⟨_, a, ha⟩
    · exact Or.inr ⟨2, hs⟩
  | none =>
    rw [h] at he
    simp only [List.mem_append] at he
    rcases he with he | he
    · rcases retryAux_trace_shape env tn (get_india_date env) max_retries 0 e he with
        ⟨a, ha⟩ | hs
      · exact Or.inl ⟨_, a, ha⟩
      · exact Or.inr ⟨2, hs⟩
    · rcases retryAux_trace_shape env tn (get_india_date_offset env (-1))
        max_retries 0 e he with ⟨a, ha⟩ | hs
      · exact Or.inl ⟨_, a, ha⟩
      · exact Or.inr ⟨2, hs⟩

/-- The primary source's wrapper never contacts RailYatri. -/
lemma try_ntes_no_rail (env : Env) (tn : String) :
    Ev.railGet ∉ (try_ntes_with_yesterday env tn).2 := by
  intro hmem
  rcases try_ntes_trace_shape env tn _ hmem with ⟨d, a, h⟩ | ⟨s, h⟩ <;> cases h

/-- The primary source's wrapper never contacts Ixigo. -/
lemma try_ntes_no_ixigo (env : Env) (tn : String) :
    Ev.ixigoGet ∉ (try_ntes_with_yesterday env tn).2 := by
  intro hmem
  rcases try_ntes_trace_shape env tn _ hmem with ⟨d, a, h⟩ | ⟨s, h⟩ <;> cases h

/-- The RailYatri adapter performs exactly one GET. -/
lemma fetch_from_railyatri_trace (env : Env) (tn : String) :
    (fetch_from_railyatri env tn).2 = [Ev.railGet] := by
  rw [fetch_from_railyatri]
  cases env.railHttp with
  | ok s d => by_cases hs : s = 200 <;> simp [hs]
  | timeout => rfl
  | connError => rfl
  | otherExn => rfl

/-- The Ixigo adapter performs exactly one GET. -/
lemma fetch_from_ixigo_trace (env : Env) (tn : String) :
    (fetch_from_ixigo env tn).2 = [Ev.ixigoGet] := by
  rw [fetch_from_ixigo]
  cases env.ixigoHttp with
  | ok s d => by_cases hs : s = 200 <;> simp [hs]
  | timeout => rfl
  | connError => rfl
  | otherExn => rfl

/-- The date-fallback wrapper issues at most `2 * max_retries` GETs. -/
lemma try_ntes_network_len (env : Env) (tn : String) :
    (networkCalls (try_ntes_with_yesterday env tn).2).length ≤ 2 * max_retries := by
  rw [try_ntes_with_yesterday]
  cases h : (fetch_data_with_retry env tn (get_india_date env)).1 with
  | some r =>
    simp only
    calc (networkCalls (fetch_data_with_retry env tn (get_india_date env)).2).length
        ≤ max_retries := retryAux_network_len env tn _ max_retries 0
      _ ≤ 2 * max_retries := by omega
  | none =>
    simp only [networkCalls, List.filter_append, List.length_append,
      fetch_data_with_retry]
    have h1 := retryAux_network_len env tn (get_india_date env) max_retries 0
    have h2 := retryAux_network_len env tn (get_india_date_offset env (-1)) max_retries 0
    simp only [networkCalls] at h1 h2
    omega

/-- The head of an appended list is the head of its non-empty left part. -/
lemma head?_append_some {α : Type} {l l' : List α} {x : α}
    (h : l.head? = some x) : (l ++ l').head? = some x := by
  cases l with
  | nil => cases h
  | cons a t => simpa using h

/-- A list's head belongs to it. -/
lemma head?_mem {α : Type} {l : List α} {x : α} (h : l.head? = some x) :
    x ∈ l := by
  cases l with
  | nil => cases h
  | cons a t => simp only [List.head?_cons, Option.some.injEq] at h; simp [h]

/-! ## Claim theorems -/

/-- C1: the orchestrator tries the sources in the fixed priority order
[NTES with date fallback, RailYatri, Ixigo]; the first source returning a
record short-circuits the search — once NTES (even on its first date) has
answered, no further date and no later source is consulted, once RailYatri
has answered Ixigo is not consulted — and the returned record is tagged
(`source_used`) with the producing source's name. -/
theorem multi_source_priority_short_circuit (env : Env) (tn : String) :
    (∀ r, (fetch_data_with_retry env tn (get_india_date env)).1 = some r →
      fetch_train_data_multi_source env tn =
        (some (tagSource r "NTES"),
          (fetch_data_with_retry env tn (get_india_date env)).2)) ∧
    (∀ r, (try_ntes_with_yesterday env tn).1 = some r →
      fetch_train_data_multi_source env tn =
        (some (tagSource r "NTES"), (try_ntes_with_yesterday env tn).2) ∧
      Ev.railGet ∉ (fetch_train_data_multi_source env tn).2 ∧
      Ev.ixigoGet ∉ (fetch_train_data_multi_source env tn).2) ∧
    ((try_ntes_with_yesterday env tn).1 = none →
      ∀ r, (fetch_from_railyatri env tn).1 = some r →
        (fetch_train_data_multi_source env tn).1 =
          some (tagSource r "RailYatri") ∧
        Ev.ixigoGet ∉ (fetch_train_data_multi_source env tn).2) ∧
    ((try_ntes_with_yesterday env tn).1 = none →
      (fetch_from_railyatri env tn).1 = none →
      ∀ r, (fetch_from_ixigo env tn).1 = some r →
        (fetch_train_data_multi_source env tn).1 =
          some (tagSource r "Ixigo")) := by
  refine ⟨?_, ?_, ?_, ?_⟩
  · intro r h
    rw [fetch_train_data_multi_source, try_ntes_with_yesterday]
    simp only [h]
  · intro r h
    have hmulti : fetch_train_data_multi_source env tn =
        (some (tagSource r "NTES"), (try_ntes_with_yesterday env tn).2) := by
      rw [fetch_train_data_multi_source]
      simp only [h]
    refine ⟨hmulti, ?_, ?_⟩
    · rw [hmulti]
      exact try_ntes_no_rail env tn
    · rw [hmulti]
      exact try_ntes_no_ixigo env tn
  · intro h1 r h2
    have hmulti : fetch_train_data_multi_source env tn =
        (some (tagSource r "RailYatri"),
          (try_ntes_with_yesterday env tn).2 ++
            Ev.sleep 1 :: (fetch_from_railyatri env tn).2) := by
      rw [fetch_train_data_multi_source]
      simp only [h1, h2]
    refine ⟨by rw [hmulti], ?_⟩
    rw [hmulti]
    intro hmem
    rcases List.mem_append.mp hmem with hmem | hmem
    · exact try_ntes_no_ixigo env tn hmem
    · rw [fetch_from_railyatri_trace] at hmem
      simp at hmem
  · intro h1 h2 r h3
    rw [fetch_train_data_multi_source]
    simp only [h1, h2, h3]

/-- C1 witness: with NTES answering 200 on its first attempt, the search
returns the NTES-tagged parsed record and stops after the primary fetch. -/
theorem multi_source_priority_short_circuit_witness :
    fetch_train_data_multi_source envNtesOkFix "12951" =
      (some (tagSource recNtesFix "NTES"),
        (fetch_data_with_retry envNtesOkFix "12951"
          (get_india_date envNtesOkFix)).2) :=
  (multi_source_priority_short_circuit envNtesOkFix "12951").1 recNtesFix
    (by decide)

/-- C9: `resolve` terminates on every train number — every function in this
model is total, so each run is a finite trace — and the number of network
attempts is bounded by 3 dates × `max_retries` for the primary source plus
`max_retries` each for the secondary and tertiary sources. (The code
actually spends at most 2 × `max_retries` + 2 GETs, under that bound.) -/
theorem resolve_bounded_attempts (env : Env) (tn : String) :
    (networkCalls (fetch_train_data_multi_source env tn).2).length ≤
      3 * max_retries + max_retries + max_retries := by
  have hmr : max_retries = 2 := rfl
  have h1 := try_ntes_network_len env tn
  rw [fetch_train_data_multi_source]
  cases h : (try_ntes_with_yesterday env tn).1 with
  | some d =>
    simp only [h]
    omega
  | none =>
    simp only [h]
    cases h2 : (fetch_from_railyatri env tn).1 with
    | some d =>
      simp only [h2, fetch_from_railyatri_trace, networkCalls,
        List.filter_append, List.length_append]
      simp only [networkCalls] at h1
      simp [List.filter_cons, List.filter_append, isNetworkCall]
      omega
    | none =>
      simp only [h2]
      cases h3 : (fetch_from_ixigo env tn).1 with
      | some d =>
        simp only [h3, fetch_from_railyatri_trace, fetch_from_ixigo_trace,
          networkCalls, List.filter_append, List.length_append]
        simp only [networkCalls] at h1
        simp [List.filter_cons, List.filter_append, isNetworkCall]
        omega
      | none =>
        simp only [h3, fetch_from_railyatri_trace, fetch_from_ixigo_trace,
          networkCalls, List.filter_append, List.length_append]
        simp only [networkCalls] at h1
        simp [List.filter_cons, List.filter_append, isNetworkCall]
        omega

/-- C10: a record produced by the secondary (RailYatri) or tertiary (Ixigo)
adapter always carries the constant status `"Running"` — these adapters
extract no status from the page, whatever the body contains. -/
theorem secondary_tertiary_status_running (env : Env) (tn : String) :
    (∀ r, (fetch_from_railyatri env tn).1 = some r → r.status = "Running") ∧
    (∀ r, (fetch_from_ixigo env tn).1 = some r → r.status = "Running") := by
  constructor
  · intro r h
    rw [fetch_from_railyatri] at h
    cases hr : env.railHttp with
    | ok s d =>
      rw [hr] at h
      by_cases hs : s = 200
      · simp only [hs, if_true, Option.some.injEq] at h
        rw [← h]
        rfl
      · simp [hs] at h
    | timeout => rw [hr] at h; cases h
    | connError => rw [hr] at h; cases h
    | otherExn => rw [hr] at h; cases h
  · intro r h
    rw [fetch_from_ixigo] at h
    cases hr : env.ixigoHttp with
    | ok s d =>
      rw [hr] at h
      by_cases hs : s = 200
      · simp only [hs, if_true, Option.some.injEq] at h
        rw [← h]
        rfl
      · simp [hs] at h
    | timeout => rw [hr] at h; cases h
    | connError => rw [hr] at h; cases h
    | otherExn => rw [hr] at h; cases h

/-- C10 witness: concrete successful RailYatri and Ixigo fetches both report
status `"Running"`. -/
theorem secondary_tertiary_status_running_witness :
    (parse_railyatri railDocFix "12951" envRailOkFix).status = "Running" ∧
    (parse_ixigo ixigoDocFix "12951" envRailOkFix).status = "Running" :=
  ⟨(secondary_tertiary_status_running envRailOkFix "12951").1
      (parse_railyatri railDocFix "12951" envRailOkFix) (by decide),
   (secondary_tertiary_status_running envRailOkFix "12951").2
      (parse_ixigo ixigoDocFix "12951" envRailOkFix) (by decide)⟩

/-- C5: `delay_minutes` is the first run of digits of the delay text that was
found (here: the `lblDelay` element, the head of the delay cascade), it is 0
when that text has no digits, and — `delay_minutes` being a `Nat` — it is
always non-negative; the extraction is a pure function of the markup.
Concretely, delay text "Running 12 min late" yields 12 and a digit-free text
yields 0. -/
theorem delay_minutes_first_digit_run (d : Doc) (tn td now : String)
    (e : Element) (hfind : find d "span" [("id", "lblDelay")] = some e)
    (hne : e.text ≠ "") :
    (parse_ntes_html d tn td now).delay_minutes =
      firstDigitRunNat (strip e.text) ∧
    (digitRuns (strip e.text) = [] →
      (parse_ntes_html d tn td now).delay_minutes = 0) ∧
    0 ≤ (parse_ntes_html d tn td now).delay_minutes ∧
    (parse_ntes_html (delayDocFix "Running 12 min late") tn td
      now).delay_minutes = 12 ∧
    (parse_ntes_html (delayDocFix "No delay information") tn td
      now).delay_minutes = 0 := by
  have hmain : (parse_ntes_html d tn td now).delay_minutes =
      firstDigitRunNat (strip e.text) := by
    rw [parse_ntes_html]
    simp only [delayFromSelectors, hfind]
    rw [if_pos hne]
  refine ⟨hmain, ?_, Nat.zero_le _, rfl, rfl⟩
  intro hruns
  rw [hmain, firstDigitRunNat, hruns]

/-- C5 witness: the general extraction law applied to a page whose delay
element reads "Running 12 min late". -/
theorem delay_minutes_first_digit_run_witness :
    (parse_ntes_html (delayDocFix "Running 12 min late") "12951" "10-10-2026"
      "12:00:00").delay_minutes =
      firstDigitRunNat (strip "Running 12 min late") :=
  (delay_minutes_first_digit_run (delayDocFix "Running 12 min late") "12951"
    "10-10-2026" "12:00:00"
    ⟨"span", [("id", "lblDelay")], "Running 12 min late"⟩ (by decide)
    (by decide)).1

/-- C6: source/destination resolution is two-tier. Tier 1: when at least two
tagged station-code elements are present, the first one's stripped text is the
source and the last one's the destination. Tier 2: otherwise the visible page
text is scanned for four-uppercase-letter tokens and the first and last
matches are taken (when at least two occur). In particular a page whose only
station-code elements are "NDLS" then "BCT" resolves to source "NDLS",
destination "BCT". -/
theorem station_code_two_tier (d : Doc) (tn td now : String) :
    (2 ≤ (find_all d "span" [("class", "station-code")]).length →
      (parse_ntes_html d tn td now).source =
        strip ((find_all d "span" [("class", "station-code")]).head!).text ∧
      (parse_ntes_html d tn td now).destination =
        strip ((find_all d "span" [("class", "station-code")]).getLast!).text) ∧
    ((find_all d "span" [("class", "station-code")]).length < 2 →
      2 ≤ (upper4 d.pageText.data).length →
      (parse_ntes_html d tn td now).source = (upper4 d.pageText.data).head! ∧
      (parse_ntes_html d tn td now).destination =
        (upper4 d.pageText.data).getLast!) ∧
    (parse_ntes_html stationDocFix tn td now).source = "NDLS" ∧
    (parse_ntes_html stationDocFix tn td now).destination = "BCT" := by
  refine ⟨?_, ?_, rfl, rfl⟩
  · intro h
    rw [parse_ntes_html]
    simp only [ge_iff_le, h, if_true]
    exact ⟨trivial, trivial⟩
  · intro h1 h2
    have h1' : ¬ (2 ≤ (find_all d "span" [("class", "station-code")]).length) := by
      omega
    rw [parse_ntes_html]
    simp only [ge_iff_le, h1', if_false, h2, if_true]
    exact ⟨trivial, trivial⟩

/-- C6 witness: tier 1 applied to the two-station-code page, giving
source "NDLS" and destination "BCT". -/
theorem station_code_two_tier_witness :
    (parse_ntes_html stationDocFix "12951" "10-10-2026" "12:00:00").source =
      strip ((find_all stationDocFix "span"
        [("class", "station-code")]).head!).text ∧
    (parse_ntes_html stationDocFix "12951" "10-10-2026"
        "12:00:00").destination =
      strip ((find_all stationDocFix "span"
        [("class", "station-code")]).getLast!).text :=
  (station_code_two_tier stationDocFix "12951" "10-10-2026" "12:00:00").1
    (by decide)

/-- C7: field extraction never raises on missing elements — the parse is a
total function — and markup containing none of the expected markers yields
exactly the documented defaults: train name `"Train {trainNo}"`, status
`"Running"`, location/source/destination `"N/A"`, delay 0. -/
theorem missing_markers_defaults (d : Doc) (tn td now : String)
    (h1 : find d "span" [("id", "lblTrainName")] = none)
    (h2 : find d "div" [("class", "train-name")] = none)
    (h3 : find d "h3" [] = none)
    (h4 : find d "h2" [] = none)
    (h5 : find d "title" [] = none)
    (h6 : find d "span" [("id", "lblRunningStatus")] = none)
    (h7 : find d "div" [("class", "status")] = none)
    (h8 : find d "span" [("id", "lblLastLocation")] = none)
    (h9 : find d "div" [("class", "location")] = none)
    (h10 : find d "span" [("id", "lblCurrentStation")] = none)
    (h11 : find d "span" [("id", "lblDelay")] = none)
    (h12 : find d "div" [("class", "delay")] = none)
    (h13 : find d "font" [("color", "red")] = none)
    (h14 : find_all d "span" [("class", "station-code")] = [])
    (h15 : (upper4 d.pageText.data).length < 2) :
    parse_ntes_html d tn td now =
      { train_no := tn
        train_name := "Train " ++ tn
        status := "Running"
        current_location := "N/A"
        delay_minutes := 0
        date := td
        last_updated := now
        source := "N/A"
        destination := "N/A"
        data_source := "NTES"
        source_used := none } := by
  have h15' : ¬ (2 ≤ (upper4 d.pageText.data).length) := by omega
  rw [parse_ntes_html]
  simp only [h1, h2, h3, h4, h5, h6, h7, h8, h9, h10, h11, h12, h13, h14,
    pickTrainName, firstText, delayFromSelectors, ge_iff_le, List.length_nil,
    h15', if_false]
  norm_num

/-- C7 witness: the empty page parses to the all-defaults record. -/
theorem missing_markers_defaults_witness :
    parse_ntes_html emptyDoc "12951" "10-10-2026" "12:00:00" =
      { train_no := "12951"
        train_name := "Train " ++ "12951"
        status := "Running"
        current_location := "N/A"
        delay_minutes := 0
        date := "10-10-2026"
        last_updated := "12:00:00"
        source := "N/A"
        destination := "N/A"
        data_source := "NTES"
        source_used := none } :=
  missing_markers_defaults emptyDoc "12951" "10-10-2026" "12:00:00"
    rfl rfl rfl rfl rfl rfl rfl rfl rfl rfl rfl rfl rfl rfl (by decide)

/-- C2 counterexample: the claim says the primary source's date fallback
enumerates exactly three candidate dates [today, yesterday,
day-before-yesterday]. In an environment where every source fails, the full
trace shows the primary source attempted on exactly two dates — today
("10-10-2026") and yesterday ("09-10-2026") — and day-before-yesterday
("08-10-2026") is never consulted before the secondary source is tried. -/
theorem date_fallback_two_dates_cex :
    (try_ntes_with_yesterday envAllFailFix "12951").1 = none ∧
    (fetch_train_data_multi_source envAllFailFix "12951").2 =
      [Ev.ntesGet "10-10-2026" 0, Ev.ntesGet "10-10-2026" 1,
       Ev.ntesGet "09-10-2026" 0, Ev.ntesGet "09-10-2026" 1,
       Ev.sleep 1, Ev.railGet, Ev.sleep 1, Ev.ixigoGet, Ev.sleep 1] ∧
    cexClock "Asia/Kolkata" "%d-%m-%Y" (-2) = "08-10-2026" ∧
    Ev.ntesGet "08-10-2026" 0 ∉
      (fetch_train_data_multi_source envAllFailFix "12951").2 ∧
    Ev.ntesGet "08-10-2026" 1 ∉
      (fetch_train_data_multi_source envAllFailFix "12951").2 := by
  decide

/-- C2 (amended): the primary source's date fallback enumerates exactly TWO
candidate dates in the order [today, yesterday] — not three — each obtained
from the clock capability for the named timezone "Asia/Kolkata" with the
day-month-year format `%d-%m-%Y` (never the host's local clock), and the
primary source is attempted on them in that order until one yields a record
or both are exhausted, after which the secondary source is attempted. -/
theorem date_fallback_today_yesterday (env : Env) (tn : String)
    (h : (try_ntes_with_yesterday env tn).1 = none) :
    (try_ntes_with_yesterday env tn).2.head? =
      some (Ev.ntesGet (get_india_date env) 0) ∧
    Ev.ntesGet (get_india_date_offset env (-1)) 0 ∈
      (try_ntes_with_yesterday env tn).2 ∧
    (∀ d a, Ev.ntesGet d a ∈ (try_ntes_with_yesterday env tn).2 →
      d = get_india_date env ∨ d = get_india_date_offset env (-1)) ∧
    Ev.railGet ∈ (fetch_train_data_multi_source env tn).2 := by
  have hmr : 0 < max_retries := by decide
  cases h1 : (fetch_data_with_retry env tn (get_india_date env)).1 with
  | some r =>
    exfalso
    rw [try_ntes_with_yesterday] at h
    simp only [h1] at h
    exact Option.noConfusion h
  | none =>
    have htr : (try_ntes_with_yesterday env tn).2 =
        (fetch_data_with_retry env tn (get_india_date env)).2 ++
          (fetch_data_with_retry env tn (get_india_date_offset env (-1))).2 := by
      rw [try_ntes_with_yesterday]
      simp only [h1]
    refine ⟨?_, ?_, ?_, ?_⟩
    · rw [htr]
      exact head?_append_some (retryAux_head env tn _ max_retries 0 hmr)
    · rw [htr]
      exact List.mem_append_right _
        (head?_mem (retryAux_head env tn _ max_retries 0 hmr))
    · intro d a hmem
      rw [htr, List.mem_append] at hmem
      rcases hmem with hmem | hmem
      · rcases retryAux_trace_shape env tn (get_india_date env) max_retries 0 _
          hmem with ⟨a', ha⟩ | hs
        · injection ha with hd _
          exact Or.inl hd
        · cases hs
      · rcases retryAux_trace_shape env tn (get_india_date_offset env (-1))
          max_retries 0 _ hmem with ⟨a', ha⟩ | hs
        · injection ha with hd _
          exact Or.inr hd
        · cases hs
    · rw [fetch_train_data_multi_source]
      simp only [h]
      cases h2 : (fetch_from_railyatri env tn).1 with
      | some r =>
        simp [fetch_from_railyatri_trace]
      | none =>
        cases h3 : (fetch_from_ixigo env tn).1 with
        | some r => simp [fetch_from_railyatri_trace]
        | none => simp [fetch_from_railyatri_trace]

/-- C2 witness: the amended fallback law applied to the all-sources-fail
environment: today attempted first, yesterday attempted, then RailYatri. -/
theorem date_fallback_today_yesterday_witness :
    (try_ntes_with_yesterday envAllFailFix "12951").2.head? =
      some (Ev.ntesGet (get_india_date envAllFailFix) 0) ∧
    Ev.ntesGet (get_india_date_offset envAllFailFix (-1)) 0 ∈
      (try_ntes_with_yesterday envAllFailFix "12951").2 ∧
    Ev.railGet ∈ (fetch_train_data_multi_source envAllFailFix "12951").2 :=
  ⟨(date_fallback_today_yesterday envAllFailFix "12951" (by decide)).1,
   (date_fallback_today_yesterday envAllFailFix "12951" (by decide)).2.1,
   (date_fallback_today_yesterday envAllFailFix "12951" (by decide)).2.2.2⟩

/-- C3 counterexample: the claim says a timeout on 0-indexed attempt `k`
triggers a wait of `2^k` time units. With NTES timing out on every attempt
and the code's own `max_retries = 2`, the trace after the attempt-0 timeout
contains a wait of 2 seconds, not `2^0 = 1`. -/
theorem timeout_backoff_not_exponential_cex :
    envTimeoutFix.ntesHttp "10-10-2026" 0 = NetOutcome.timeout ∧
    (fetch_data_with_retry envTimeoutFix "12951" "10-10-2026").2 =
      [Ev.ntesGet "10-10-2026" 0, Ev.sleep 2, Ev.ntesGet "10-10-2026" 1] ∧
    Ev.sleep (2 ^ 0) ∉
      (fetch_data_with_retry envTimeoutFix "12951" "10-10-2026").2 := by
  decide

/-- C3 (amended): a timeout on the 0-indexed attempt `k` triggers a FIXED
wait of 2 time units — independent of `k`, not `2^k` — before the next
attempt, except on the final permitted attempt, where the controller gives
up immediately without waiting. (`rem + 2` permitted attempts left means
`k` is not final; 1 left means `k` is the final attempt.) -/
theorem timeout_fixed_wait (env : Env) (tn td : String) (rem k : Nat)
    (hto : env.ntesHttp td k = NetOutcome.timeout) :
    retryAux env tn td (rem + 2) k =
      ((retryAux env tn td (rem + 1) (k + 1)).1,
        Ev.ntesGet td k :: Ev.sleep 2 ::
          (retryAux env tn td (rem + 1) (k + 1)).2) ∧
    retryAux env tn td 1 k = (none, [Ev.ntesGet td k]) := by
  constructor
  · show retryAux env tn td ((rem + 1) + 1) k = _
    rw [retryAux, hto]
    simp
  · show retryAux env tn td (0 + 1) k = _
    rw [retryAux, hto]
    simp

/-- C3 witness: the fixed-wait law at attempt 0 of a 2-attempt sequence, and
the no-wait law on a final attempt. -/
theorem timeout_fixed_wait_witness :
    retryAux envTimeoutFix "12951" "10-10-2026" 2 0 =
      ((retryAux envTimeoutFix "12951" "10-10-2026" 1 1).1,
        Ev.ntesGet "10-10-2026" 0 :: Ev.sleep 2 ::
          (retryAux envTimeoutFix "12951" "10-10-2026" 1 1).2) ∧
    retryAux envTimeoutFix "12951" "10-10-2026" 1 0 =
      (none, [Ev.ntesGet "10-10-2026" 0]) :=
  timeout_fixed_wait envTimeoutFix "12951" "10-10-2026" 0 0 rfl

/-- C4 counterexample: the claim says a transport-level connection error is
retried with a fixed wait when attempts remain. Here the connection error
hits attempt 0 of 2, attempt 1 would have returned a parseable 200 response,
yet the controller returns `None` after a single GET with no wait and no
retry: connection errors fall into the generic `except Exception` clause and
abort. -/
theorem conn_error_not_retried_cex :
    envConnFix.ntesHttp "10-10-2026" 0 = NetOutcome.connError ∧
    envConnFix.ntesHttp "10-10-2026" 1 = NetOutcome.ok 200 ntesDocFix ∧
    fetch_data_with_retry envConnFix "12951" "10-10-2026" =
      (none, [Ev.ntesGet "10-10-2026" 0]) := by
  decide

/-- C4 (amended): a transport-level connection error aborts the attempt
sequence immediately — with no wait and without consuming the remaining
retries — exactly like any other unexpected failure mode; only timeouts are
retried. -/
theorem conn_error_aborts (env : Env) (tn td : String) (rem k : Nat)
    (h : env.ntesHttp td k = NetOutcome.connError ∨
      env.ntesHttp td k = NetOutcome.otherExn) :
    retryAux env tn td (rem + 1) k = (none, [Ev.ntesGet td k]) := by
  rcases h with h | h <;> rw [retryAux, h]

/-- C4 witness: the abort law applied to the connection error on attempt 0
with one attempt remaining. -/
theorem conn_error_aborts_witness :
    retryAux envConnFix "12951" "10-10-2026" 2 0 =
      (none, [Ev.ntesGet "10-10-2026" 0]) :=
  conn_error_aborts envConnFix "12951" "10-10-2026" 1 0 (Or.inl rfl)

/-- C8 counterexample: the claim says the exhaustion failure includes which
dates and sources were attempted. Two all-sources-fail runs under clocks
with different calendar dates attempt different dates (shown by the traces)
yet produce byte-identical 404 responses, so the user-visible failure cannot
include the attempted dates or sources; its `error`/`message` fields are
fixed generic strings. -/
theorem notfound_body_omits_attempts_cex :
    (get_train_status_multi envAllFailFix "12951").1 = 404 ∧
    Ev.ntesGet "10-10-2026" 0 ∈
      (fetch_train_data_multi_source envAllFailFix "12951").2 ∧
    Ev.ntesGet "10-10-2026" 0 ∉
      (fetch_train_data_multi_source envAllFailFix2 "12951").2 ∧
    Ev.ntesGet "01-01-2030" 0 ∈
      (fetch_train_data_multi_source envAllFailFix2 "12951").2 ∧
    get_train_status_multi envAllFailFix "12951" =
      get_train_status_multi envAllFailFix2 "12951" := by
  decide

/-- C8 (amended): when every source (and both of the primary's fallback
dates) has been exhausted, the caller receives a 404 — never a 5xx: the
endpoint only ever answers 200 or 404 — whose JSON body carries the fields
`error`, `train_no` and `message`; the body is a fixed generic message plus
the server timestamp, and does NOT list the attempted dates or sources. -/
theorem notfound_404_shape (env : Env) (tn : String) :
    ((fetch_train_data_multi_source env tn).1 = none →
      get_train_status_multi env tn =
        (404, Body.err "Train data not found from any source" tn
          "All railway data sources are currently unavailable. Please try again later."
          (get_india_datetime env))) ∧
    ((get_train_status_multi env tn).1 = 200 ∨
      (get_train_status_multi env tn).1 = 404) := by
  constructor
  · intro h
    rw [get_train_status_multi]
    simp only [h]
  · rw [get_train_status_multi]
    cases (fetch_train_data_multi_source env tn).1 <;> simp

/-- C8 witness: the 404 shape on the all-sources-fail environment. -/
theorem notfound_404_shape_witness :
    get_train_status_multi envAllFailFix "12951" =
      (404, Body.err "Train data not found from any source" "12951"
        "All railway data sources are currently unavailable. Please try again later."
        (get_india_datetime envAllFailFix)) :=
  (notfound_404_shape envAllFailFix "12951").1 (by decide)

end Railway
